import Mathlib

/-!
Shallow embedding of `src/mainapp.py` (QuickSight Governance & Lineage tool).

The core logic of the program lives in lines 74-192 of `mainapp.py`:
building a dataset-identifier-to-name dictionary, collecting the set of
dataset identifiers referenced by any dashboard, filtering the datasets
down to the unreferenced ("orphan") ones, filtering the dashboards down
to the ones using a chosen dataset, and emitting nodes and edges for the
dependency graph.  Records are embedded as structures, pandas DataFrames
as lists of records (a pandas boolean-mask selection is a list `filter`,
preserving row order), the Python dict as a left-to-right fold of updates,
and the Python set as the duplicate-free list of its elements.
-/

/-- A record of `data['datasets']` (spec section 6): fields `id`, `name`, `arn`. -/
structure Dataset where
  id : String
  name : String
  arn : String
deriving DecidableEq

/-- A record of `data['dashboards']` (spec section 6): fields `id`, `name`,
`used_datasets`. -/
structure Dashboard where
  id : String
  name : String
  used_datasets : List String
deriving DecidableEq

/-- Line 83: `arn_to_name = dict(zip(df_data['arn'], df_data['name']))`.
A Python dict is built left to right, so a later record with the same `arn`
overwrites an earlier one; looking up an absent key yields nothing. -/
def arn_to_name (datasets : List Dataset) : String → Option String :=
  datasets.foldl (fun m d => fun k => if k = d.arn then some d.name else m k)
    (fun _ => none)

/-- Lines 87-89: the list of every ARN appearing in any dashboard's
`used_datasets`, accumulated with `extend` across the dashboards in order. -/
def all_used_arns (dashes : List Dashboard) : List String :=
  dashes.foldl (fun acc b => acc ++ b.used_datasets) []

/-- Line 91: `unique_used_arns = set(all_used_arns)`, modelled as the
duplicate-free list of elements of `all_used_arns` (the program uses the set
only for membership tests and for iteration producing one item per element). -/
def unique_used_arns (dashes : List Dashboard) : List String :=
  (all_used_arns dashes).dedup

/-- Line 94: `orphans = df_data[~df_data['arn'].isin(unique_used_arns)]` —
the rows of the dataset table whose `arn` is not in the used set, in order. -/
def orphans (dashes : List Dashboard) (datasets : List Dataset) : List Dataset :=
  datasets.filter (fun d => !(unique_used_arns dashes).contains d.arn)

/-- Line 116: `df_data[df_data['name'] == selected_dataset_name]['arn'].values[0]`
— the `arn` of the first row whose `name` matches; `.values[0]` on an empty
selection raises, hence the `Option`. -/
def selected_arn (datasets : List Dataset) (nm : String) : Option String :=
  ((datasets.filter (fun d => d.name == nm)).head?).map (fun d => d.arn)

/-- Line 120: `affected = df_dash[df_dash['used_datasets'].apply(lambda x: selected_arn in x)]`
— the dashboards whose `used_datasets` list contains the given ARN, in order. -/
def affected (a : String) (dashes : List Dashboard) : List Dashboard :=
  dashes.filter (fun b => b.used_datasets.contains a)

/-- A node handed to `agraph` (lines 155-161, 175-181). -/
structure GNode where
  id : String
  label : String
  size : Nat
  shape : String
  color : String
deriving DecidableEq

/-- An edge handed to `agraph` (line 170). -/
structure GEdge where
  source : String
  target : String
  color : String
deriving DecidableEq

/-- Line 166: `arn_to_name.get(arn, "Unknown Dataset")` — the display name of
an ARN, with the placeholder when the ARN has no dataset record. -/
def ds_name (datasets : List Dataset) (a : String) : String :=
  (arn_to_name datasets a).getD "Unknown Dataset"

/-- Lines 154-161: one orange dashboard node per dashboard row, keyed by the
dashboard's name. -/
def dashboard_nodes (dashes : List Dashboard) : List GNode :=
  dashes.map (fun b => ⟨b.name, b.name, 25, "dot", "#FF9900"⟩)

/-- Lines 163-170: inside the same loop over dashboard rows, one grey edge per
ARN in the row's `used_datasets`, from the dataset's display name to the
dashboard's name. -/
def edges (datasets : List Dataset) (dashes : List Dashboard) : List GEdge :=
  dashes.foldl
    (fun acc b =>
      acc ++ b.used_datasets.map (fun a => ⟨ds_name datasets a, b.name, "#bdc3c7"⟩))
    []

/-- Lines 172-181: one blue dataset node per element of `unique_used_arns`. -/
def dataset_nodes (datasets : List Dataset) (dashes : List Dashboard) : List GNode :=
  (unique_used_arns dashes).map
    (fun a => ⟨ds_name datasets a, ds_name datasets a, 15, "dot", "#00BFFF"⟩)

/-- Lines 150-181: the full node list — dashboard nodes, then dataset nodes. -/
def nodes (datasets : List Dataset) (dashes : List Dashboard) : List GNode :=
  dashboard_nodes dashes ++ dataset_nodes datasets dashes

/-- Lines 134-140: the rows of `orphans[['name','id']].to_csv(index=False)` —
a header row followed by one `[name, id]` row per orphan dataset, in order. -/
def download_rows (dashes : List Dashboard) (datasets : List Dataset) :
    List (List String) :=
  ["name", "id"] :: (orphans dashes datasets).map (fun d => [d.name, d.id])

/-- Line 88: the column access `df_dash['used_datasets']`.  A pandas DataFrame
built from an empty record list has no columns at all, so this access raises
`KeyError` when the dashboards list is empty; the failure is modelled as
`none`. -/
def df_dash_used_datasets (dashes : List Dashboard) :
    Option (List (List String)) :=
  if dashes.isEmpty then none else some (dashes.map (fun b => b.used_datasets))

/-- Spec section 8 (partition property): the datasets whose identifier is in
the referenced set — the complement of `orphans` inside the dataset table. -/
def referenced_datasets (dashes : List Dashboard) (datasets : List Dataset) :
    List Dataset :=
  datasets.filter (fun d => (unique_used_arns dashes).contains d.arn)

/-! ### Helper lemmas -/

/-- Folding list-append over a list starting from `init` is `init` followed by
the flattened images: the loop of lines 87-89 builds a concatenation. -/
theorem foldl_append_eq_flatMap {α β : Type} (f : α → List β) (l : List α)
    (init : List β) :
    l.foldl (fun acc b => acc ++ f b) init = init ++ l.flatMap f := by
  induction l generalizing init with
  | nil => simp
  | cons x xs ih => simp [ih, List.append_assoc]

/-- Unfolded, `all_used_arns` is the concatenation of every dashboard's list. -/
theorem all_used_arns_eq (dashes : List Dashboard) :
    all_used_arns dashes = dashes.flatMap (fun b => b.used_datasets) := by
  simpa [all_used_arns] using
    foldl_append_eq_flatMap (fun b : Dashboard => b.used_datasets) dashes []

/-- An ARN is in `all_used_arns` exactly when some dashboard uses it. -/
theorem mem_all_used_arns (dashes : List Dashboard) (a : String) :
    a ∈ all_used_arns dashes ↔ ∃ b ∈ dashes, a ∈ b.used_datasets := by
  simp [all_used_arns_eq]

/-- Membership in the used set is membership in some dashboard's list. -/
theorem unique_used_arns_contains (dashes : List Dashboard) (a : String) :
    (unique_used_arns dashes).contains a
      = decide (∃ b ∈ dashes, a ∈ b.used_datasets) := by
  rw [Bool.eq_iff_iff]
  simp [unique_used_arns, List.elem_iff, List.mem_dedup, mem_all_used_arns]

/-- The fold of line 83 looks up the last matching record, falling back to the
initial dictionary. -/
theorem arn_to_name_foldl (datasets : List Dataset) (m : String → Option String)
    (a : String) :
    (datasets.foldl (fun m d => fun k => if k = d.arn then some d.name else m k) m) a
      = ((datasets.reverse.find? (fun r => r.arn == a)).map (fun r => r.name)).or (m a) := by
  induction datasets generalizing m with
  | nil => simp
  | cons d ds ih =>
    rw [List.foldl_cons, ih]
    rcases h : ds.reverse.find? (fun r => r.arn == a) with _ | r
    · by_cases h2 : a = d.arn
      · subst h2
        simp [h]
      · have : (d.arn == a) = false := by
          simp [Ne.symm h2]
        simp [h, this, h2]
    · simp [h]

/-- Characterisation of the dictionary of line 83: the name of the last
record with the given arn, if any. -/
theorem arn_to_name_eq (datasets : List Dataset) (a : String) :
    arn_to_name datasets a
      = (datasets.reverse.find? (fun r => r.arn == a)).map (fun r => r.name) := by
  rw [arn_to_name, arn_to_name_foldl]
  simp

/-- The dictionary has no entry for an arn exactly when no record carries it. -/
theorem arn_to_name_eq_none (datasets : List Dataset) (a : String) :
    arn_to_name datasets a = none ↔ ∀ d ∈ datasets, d.arn ≠ a := by
  simp [arn_to_name_eq]

/-- The edge list is one edge per (dashboard, used arn) pair, flattened in
dashboard order. -/
theorem edges_eq (datasets : List Dataset) (dashes : List Dashboard) :
    edges datasets dashes
      = dashes.flatMap (fun b =>
          b.used_datasets.map
            (fun a => ⟨ds_name datasets a, b.name, "#bdc3c7"⟩)) := by
  simpa [edges] using
    foldl_append_eq_flatMap
      (fun b : Dashboard =>
        b.used_datasets.map
          (fun a => (⟨ds_name datasets a, b.name, "#bdc3c7"⟩ : GEdge)))
      dashes []

/-! ### Claim theorems -/

/-- C1: for every snapshot, the orphan computation of line 94 returns exactly
the subsequence of the dataset sequence whose identifier (`arn`) is not a
member of the referenced-identifier set — the union of all dashboards'
`used_datasets` — preserving the datasets' original relative order. -/
theorem orphans_exact_unreferenced_subsequence (dashes : List Dashboard)
    (datasets : List Dataset) :
    orphans dashes datasets
      = datasets.filter (fun d => decide (¬ ∃ b ∈ dashes, d.arn ∈ b.used_datasets)) := by
  unfold orphans
  apply List.filter_congr
  intro d _
  rw [unique_used_arns_contains]
  rw [Bool.eq_iff_iff]
  simp

/-- C2: the referenced datasets and the orphans partition the dataset table:
their concatenation is a permutation of the full dataset sequence, and their
intersection is empty. -/
theorem orphans_referenced_partition (dashes : List Dashboard)
    (datasets : List Dataset) :
    (referenced_datasets dashes datasets ++ orphans dashes datasets).Perm datasets
      ∧ orphans dashes datasets ∩ referenced_datasets dashes datasets = [] := by
  constructor
  · exact List.filter_append_perm _ datasets
  · rw [List.inter_eq_nil_iff_disjoint]
    intro d hd hd2
    rw [orphans, List.mem_filter] at hd
    rw [referenced_datasets, List.mem_filter] at hd2
    rw [hd2.2] at hd
    exact absurd hd.2 (by simp)

/-- C3: the impact computation of line 120 returns exactly the subsequence of
dashboards whose `used_datasets` contains the identifier, preserving original
order, and it is empty — rather than an error — exactly when no dashboard
uses the identifier. -/
theorem affected_exact_subsequence (a : String) (dashes : List Dashboard) :
    affected a dashes = dashes.filter (fun b => decide (a ∈ b.used_datasets))
      ∧ (affected a dashes = [] ↔ ∀ b ∈ dashes, a ∉ b.used_datasets) := by
  constructor
  · apply List.filter_congr
    intro b _
    rw [Bool.eq_iff_iff]
    simp [List.elem_iff]
  · rw [affected, List.filter_eq_nil_iff]
    simp [List.elem_iff]

/-- C4: for a dataset present in the dataset sequence, the impact result for
its identifier is empty exactly when the dataset is an orphan. -/
theorem affected_empty_iff_orphan (dashes : List Dashboard)
    (datasets : List Dataset) (d : Dataset) (hd : d ∈ datasets) :
    affected d.arn dashes = [] ↔ d ∈ orphans dashes datasets := by
  rw [affected, List.filter_eq_nil_iff, orphans, List.mem_filter]
  simp only [hd, true_and, unique_used_arns_contains]
  simp [List.elem_iff]

/-- Witness for C4 at a concrete snapshot: one dataset, no dashboards. -/
theorem affected_empty_iff_orphan_witness :
    affected "a" [] = [] ↔ (⟨"i", "n", "a"⟩ : Dataset) ∈ orphans [] [⟨"i", "n", "a"⟩] :=
  affected_empty_iff_orphan [] [⟨"i", "n", "a"⟩] ⟨"i", "n", "a"⟩ (by simp)

/-- C5: a dashboard referencing an ARN with no dataset record cannot crash the
index or the graph builder (every function here is total), and both the
dataset node and every edge produced for that ARN carry the placeholder
display name "Unknown Dataset". -/
theorem dangling_reference_placeholder (datasets : List Dataset)
    (dashes : List Dashboard) (a : String)
    (hused : a ∈ all_used_arns dashes)
    (hdangling : ∀ d ∈ datasets, d.arn ≠ a) :
    (⟨"Unknown Dataset", "Unknown Dataset", 15, "dot", "#00BFFF"⟩ : GNode)
        ∈ nodes datasets dashes
      ∧ ∀ b ∈ dashes, a ∈ b.used_datasets →
          (⟨"Unknown Dataset", b.name, "#bdc3c7"⟩ : GEdge) ∈ edges datasets dashes := by
  have hname : ds_name datasets a = "Unknown Dataset" := by
    rw [ds_name, (arn_to_name_eq_none datasets a).2 hdangling]
    rfl
  constructor
  · rw [nodes, List.mem_append]
    right
    rw [dataset_nodes]
    have hmem : a ∈ unique_used_arns dashes := by
      rw [unique_used_arns, List.mem_dedup]
      exact hused
    have := List.mem_map_of_mem
      (fun a => (⟨ds_name datasets a, ds_name datasets a, 15, "dot", "#00BFFF"⟩ : GNode))
      hmem
    simpa only [hname] using this
  · intro b hb hab
    rw [edges_eq]
    rw [List.mem_flatMap]
    refine ⟨b, hb, ?_⟩
    have := List.mem_map_of_mem
      (fun a => (⟨ds_name datasets a, b.name, "#bdc3c7"⟩ : GEdge)) hab
    simpa only [hname] using this

/-- Witness for C5: one dashboard using the ARN "dsX" with no datasets. -/
theorem dangling_reference_placeholder_witness :
    (⟨"Unknown Dataset", "Unknown Dataset", 15, "dot", "#00BFFF"⟩ : GNode)
        ∈ nodes [] [⟨"b1", "Dash", ["dsX"]⟩]
      ∧ ∀ b ∈ [(⟨"b1", "Dash", ["dsX"]⟩ : Dashboard)], "dsX" ∈ b.used_datasets →
          (⟨"Unknown Dataset", b.name, "#bdc3c7"⟩ : GEdge) ∈ edges [] [⟨"b1", "Dash", ["dsX"]⟩] :=
  dangling_reference_placeholder [] [⟨"b1", "Dash", ["dsX"]⟩] "dsX"
    (by simp [all_used_arns]) (by simp)

/-- C6: the number of edges equals the total count of (dashboard, used-arn)
pairs across all dashboards; the number of dataset nodes equals the number of
distinct referenced identifiers; and every edge runs from a dataset display
name to the name of the dashboard that references it. -/
theorem graph_counts (datasets : List Dataset) (dashes : List Dashboard) :
    (edges datasets dashes).length
        = (dashes.map (fun b => b.used_datasets.length)).sum
      ∧ (dataset_nodes datasets dashes).length = (all_used_arns dashes).toFinset.card
      ∧ ∀ e ∈ edges datasets dashes, ∃ b ∈ dashes,
          e.target = b.name ∧ ∃ a ∈ b.used_datasets, e.source = ds_name datasets a := by
  refine ⟨?_, ?_, ?_⟩
  · rw [edges_eq]
    simp [List.flatMap, Function.comp_def]
  · rw [dataset_nodes, List.length_map, unique_used_arns, List.card_toFinset]
  · intro e he
    rw [edges_eq, List.mem_flatMap] at he
    obtain ⟨b, hb, he⟩ := he
    rw [List.mem_map] at he
    obtain ⟨a, ha, he⟩ := he
    exact ⟨b, hb, by rw [← he], a, ha, by rw [← he]⟩

/-- C7: the name-to-identifier resolution of line 116 deterministically picks
the first dataset, in original sequence order, whose display name matches. -/
theorem selected_arn_first_match (datasets : List Dataset) (nm : String)
    (d : Dataset) (h : datasets.find? (fun r => r.name == nm) = some d) :
    selected_arn datasets nm = some d.arn := by
  rw [selected_arn, List.filter_head?, h]
  rfl

/-- Witness for C7: two datasets share the name "N"; the first one's arn is
returned. -/
theorem selected_arn_first_match_witness :
    selected_arn [⟨"i1", "N", "a1"⟩, ⟨"i2", "N", "a2"⟩] "N" = some "a1" :=
  selected_arn_first_match [⟨"i1", "N", "a1"⟩, ⟨"i2", "N", "a2"⟩] "N"
    ⟨"i1", "N", "a1"⟩ rfl

/-- C8: with an empty dashboards list the program never reaches the orphan
computation: `pd.DataFrame([])` has no columns at all, so the column access
`df_dash['used_datasets']` on line 88 raises `KeyError` before `orphans` or
`affected` are computed.  The modelled column access fails on that input. -/
theorem empty_dashboards_column_access_fails : df_dash_used_datasets [] = none :=
  rfl

/-- C9 as stated is false at a concrete snapshot (one dashboard referencing
an unrelated arn, so the page renders and the export of line 137 is reached):
the exported orphan table carries the `name` and `id` columns, and for a
dataset whose `arn` differs from its `id`, the arn — the identifier used
throughout the core — appears in no cell of the exported rows. -/
theorem download_rows_lack_arn :
    download_rows [⟨"b1", "Dash", ["other"]⟩] [⟨"id1", "N", "arnX"⟩]
        = [["name", "id"], ["N", "id1"]]
      ∧ ∀ row ∈ download_rows [⟨"b1", "Dash", ["other"]⟩] [⟨"id1", "N", "arnX"⟩],
          "arnX" ∉ row := by
  decide

/-- C9 amended: the exported delimited table holds, for each orphan dataset,
its display name together with its `id` field (one row per orphan after the
header row); the `arn` field is the identifier the core computations key on,
but it is not a column of the export. -/
theorem download_rows_name_id (dashes : List Dashboard) (datasets : List Dataset)
    (d : Dataset) (hd : d ∈ orphans dashes datasets) :
    [d.name, d.id] ∈ download_rows dashes datasets
      ∧ (download_rows dashes datasets).length
          = (orphans dashes datasets).length + 1 := by
  constructor
  · rw [download_rows]
    exact List.mem_cons_of_mem _
      (List.mem_map_of_mem (fun d => [d.name, d.id]) hd)
  · rw [download_rows]
    simp

/-- Witness for the amended C9: with one dashboard referencing an unrelated
arn, the single orphan dataset is exported as its name and id. -/
theorem download_rows_name_id_witness :
    ["N", "id1"] ∈ download_rows [⟨"b1", "Dash", ["other"]⟩] [⟨"id1", "N", "arnX"⟩]
      ∧ (download_rows [⟨"b1", "Dash", ["other"]⟩] [⟨"id1", "N", "arnX"⟩]).length
          = (orphans [⟨"b1", "Dash", ["other"]⟩] [⟨"id1", "N", "arnX"⟩]).length + 1 :=
  download_rows_name_id [⟨"b1", "Dash", ["other"]⟩] [⟨"id1", "N", "arnX"⟩]
    ⟨"id1", "N", "arnX"⟩ (by decide)

/-- C10: the dictionary of line 83 resolves a duplicated arn to the display
name of the last record carrying it — later entries overwrite earlier ones. -/
theorem arn_to_name_last_wins (datasets : List Dataset) (a : String)
    (d : Dataset) (h : datasets.reverse.find? (fun r => r.arn == a) = some d) :
    arn_to_name datasets a = some d.name := by
  rw [arn_to_name_eq, h]
  rfl

/-- Witness for C10: two records share the arn "a"; the second one's name is
returned by the lookup. -/
theorem arn_to_name_last_wins_witness :
    arn_to_name [⟨"1", "First", "a"⟩, ⟨"2", "Second", "a"⟩] "a" = some "Second" :=
  arn_to_name_last_wins [⟨"1", "First", "a"⟩, ⟨"2", "Second", "a"⟩] "a"
    ⟨"2", "Second", "a"⟩ rfl
